import Mathlib

/-!
Shallow embedding of the transporter control plane (Go sources) used to check
the natural-language specification against the code.

Conventions of the embedding:
* `time.Time` / `time.Duration` become `Int` (an instant / a span on one clock);
  `time.Since(t) > ttl` at instant `now` becomes `now - t > ttl`.
* Go maps with string keys become association lists `List (String × _)` with
  explicit get/set/delete helpers mirroring Go map operations.
* `map[string]interface{}` values that the code only passes through opaquely
  are modelled as `List (String × String)`.
* Fallible Go functions returning `error` become `Option`/`Except` results;
  a Go runtime panic (send on a closed channel, close of a closed channel)
  and a deadlock (re-acquiring a held non-reentrant mutex) are modelled as
  `Option.none` of the whole computation: the function never returns normally.
* Callbacks become an explicit list of fired callback values, in firing order.
-/

namespace Transporter

/-- Association-list get with Go map semantics: a missing key of a
`map[string][]T` reads as the zero value (here the empty list). -/
def mapGet (m : List (String × List α)) (k : String) : List α :=
  match m.find? (fun p => p.1 == k) with
  | some p => p.2
  | none => []

/-- Association-list membership lookup, Go `v, ok := m[k]`. -/
def mapFind (m : List (String × α)) (k : String) : Option α :=
  match m.find? (fun p => p.1 == k) with
  | some p => some p.2
  | none => none

/-- Association-list set, Go `m[k] = v`. -/
def mapSet (m : List (String × α)) (k : String) (v : α) : List (String × α) :=
  match m with
  | [] => [(k, v)]
  | p :: rest => if p.1 == k then (k, v) :: rest else p :: mapSet rest k v

/-- Association-list delete, Go `delete(m, k)`. -/
def mapDelete (m : List (String × α)) (k : String) : List (String × α) :=
  match m with
  | [] => []
  | p :: rest => if p.1 == k then rest else p :: mapDelete rest k

/-! ## Agent model (src/model/agent.go) -/

/-- `AgentStatus` enum: connected / disconnected / unhealthy. -/
inductive AgentStatus where
  | connected
  | disconnected
  | unhealthy
  deriving DecidableEq, Repr

/-- `model.Agent` (src/model/agent.go). -/
structure Agent where
  id : String
  name : String
  clusterName : String
  clusterProvider : String
  region : String
  version : String
  labels : List (String × String)
  connectionID : String
  status : AgentStatus
  lastHeartbeat : Int
  connectedAt : Int
  disconnectedAt : Option Int
  capabilities : List String
  hostname : String
  namespaceName : String
  metadata : List (String × String)
  deriving DecidableEq, Repr

/-- `model.AgentRegistration` (src/model/agent.go). -/
structure AgentRegistration where
  id : String
  name : String
  clusterName : String
  clusterProvider : String
  region : String
  version : String
  labels : List (String × String)
  capabilities : List String
  hostname : String
  namespaceName : String
  metadata : List (String × String)
  deriving DecidableEq, Repr

/-- Agent-side validation errors (src/model/agent.go custom errors). -/
inductive AgentError where
  | missingAgentID
  | missingAgentName
  | missingClusterName
  | missingAgentVersion
  | missingCapabilities
  | agentNotFound
  deriving DecidableEq, Repr

/-- `AgentRegistration.Validate` (src/model/agent.go): `none` means no error. -/
def AgentRegistration.validate (ar : AgentRegistration) : Option AgentError :=
  if ar.id = "" then some .missingAgentID
  else if ar.name = "" then some .missingAgentName
  else if ar.clusterName = "" then some .missingClusterName
  else if ar.version = "" then some .missingAgentVersion
  else if ar.capabilities.length = 0 then some .missingCapabilities
  else none

/-- `AgentRegistration.ToAgent` (src/model/agent.go): fresh record in
`connected` state with last-heartbeat and connected-at set to now. -/
def AgentRegistration.toAgent (ar : AgentRegistration) (connectionID : String)
    (now : Int) : Agent :=
  { id := ar.id
    name := ar.name
    clusterName := ar.clusterName
    clusterProvider := ar.clusterProvider
    region := ar.region
    version := ar.version
    labels := ar.labels
    connectionID := connectionID
    status := .connected
    lastHeartbeat := now
    connectedAt := now
    disconnectedAt := none
    capabilities := ar.capabilities
    hostname := ar.hostname
    namespaceName := ar.namespaceName
    metadata := ar.metadata }

/-- `Agent.MarkDisconnected` (src/model/agent.go). -/
def Agent.markDisconnected (a : Agent) (now : Int) : Agent :=
  { a with status := .disconnected, disconnectedAt := some now }

/-! ## Event model (src/internal/model/event.go)

The `Type` discriminator arrives from the wire as a raw string, so it is kept
as `String` (the Go type `EventType` is a string type). -/

/-- `model.PolicyRule` (src/internal/model/event.go). -/
structure PolicyRule where
  name : String
  ruleType : String
  parameters : List (String × String)
  severity : String
  description : String
  deriving DecidableEq, Repr

/-- `model.EventPayload` (src/internal/model/event.go): the three variant
field groups live side by side in one struct. -/
structure EventPayload where
  manifests : List String
  script : String
  args : List String
  policyRules : List PolicyRule
  deriving DecidableEq, Repr

/-- `model.Event` (src/internal/model/event.go). -/
structure Event where
  id : String
  eventType : String
  targetAgent : String
  payload : EventPayload
  createdAt : Int
  createdBy : String
  ttl : Int
  priority : Int
  labels : List (String × String)
  deriving DecidableEq, Repr

/-- Event validation errors (src/internal/model/event.go custom errors). -/
inductive EventError where
  | missingEventID
  | missingTargetAgent
  | missingEventType
  | emptyManifests
  | emptyScript
  | emptyPolicyRules
  | unknownEventType
  deriving DecidableEq, Repr

/-- `Event.Validate` (src/internal/model/event.go lines 79-109): `none` means
the event passed validation. The switch on `e.Type` checks only the payload
variant selected by the discriminator. -/
def Event.validate (e : Event) : Option EventError :=
  if e.id = "" then some .missingEventID
  else if e.targetAgent = "" then some .missingTargetAgent
  else if e.eventType = "" then some .missingEventType
  else if e.eventType = "k8s_resource" then
    if e.payload.manifests.length = 0 then some .emptyManifests else none
  else if e.eventType = "script" then
    if e.payload.script = "" then some .emptyScript else none
  else if e.eventType = "policy" then
    if e.payload.policyRules.length = 0 then some .emptyPolicyRules else none
  else some .unknownEventType

/-- `Event.IsExpired` (src/internal/model/event.go): `time.Since(CreatedAt) >
TTL` evaluated at instant `now`. -/
def Event.isExpired (e : Event) (now : Int) : Bool :=
  now - e.createdAt > e.ttl

/-- Spec-side predicate, written from the specification words only (for the
refinement comparison in claim C2): "exactly one non-empty payload variant
consistent with the kind tag" — the variant selected by the kind is non-empty
and the two other variants are empty. -/
def specExactlyOneVariant (e : Event) : Bool :=
  (e.eventType = "k8s_resource" && e.payload.manifests.length != 0
      && e.payload.script == "" && e.payload.policyRules.length == 0)
  || (e.eventType = "script" && e.payload.script != ""
      && e.payload.manifests.length == 0 && e.payload.policyRules.length == 0)
  || (e.eventType = "policy" && e.payload.policyRules.length != 0
      && e.payload.manifests.length == 0 && e.payload.script == "")

/-! ## Event status model (src/internal/model/status.go)

`ExecutionState`, `ExecutionPhase` and `LogLevel` are Go string types and
status updates arrive from the wire with arbitrary strings, so they stay
`String` here; the named constants become string literals. -/

/-- `model.EventResult` (src/internal/model/status.go). -/
structure EventResult where
  success : Bool
  errorMessage : String
  completedAt : Int
  duration : Int
  deriving DecidableEq, Repr

/-- `model.LogEntry` (src/internal/model/status.go). -/
structure LogEntry where
  timestamp : Int
  phase : String
  level : String
  message : String
  details : List (String × String)
  deriving DecidableEq, Repr

/-- `model.EventStatus` (src/internal/model/status.go). -/
structure EventStatus where
  eventID : String
  agentID : String
  state : String
  phase : String
  message : String
  updatedAt : Int
  executionLog : List LogEntry
  result : Option EventResult
  deriving DecidableEq, Repr

/-- `model.NewEventStatus` (src/internal/model/status.go lines 83-93). -/
def newEventStatus (eventID agentID : String) (now : Int) : EventStatus :=
  { eventID := eventID
    agentID := agentID
    state := "assigned"
    phase := "received"
    message := "Event assigned to agent"
    updatedAt := now
    executionLog := []
    result := none }

/-- `EventStatus.IsTerminal` (src/internal/model/status.go lines 155-158). -/
def EventStatus.isTerminal (es : EventStatus) : Bool :=
  es.state == "completed" || es.state == "failed" || es.state == "expired"

/-- `EventStatus.AddLog` (src/internal/model/status.go lines 112-121). -/
def EventStatus.addLog (es : EventStatus) (level : String) (phase : String)
    (message : String) (details : List (String × String)) (now : Int) :
    EventStatus :=
  { es with executionLog := es.executionLog ++
      [{ timestamp := now, phase := phase, level := level,
         message := message, details := details }] }

/-- `model.StatusUpdate` (src/internal/model/status.go lines 161-171). -/
structure StatusUpdate where
  eventID : String
  agentID : String
  state : String
  phase : String
  message : String
  logLevel : String
  details : List (String × String)
  result : Option EventResult
  timestamp : Int
  deriving DecidableEq, Repr

/-- The status reconciler: the `status_update` arm of `handleAgentReads` in
the control-plane server (merge of the update into the loaded record). Each
non-empty field of the update overwrites the record unconditionally — the
code has no terminal-state guard — then a log entry is appended when the
update carries a log level, and `updated_at` is set to now. -/
def applyStatusUpdate (status : EventStatus) (u : StatusUpdate) (now : Int) :
    EventStatus :=
  let s1 := if u.state ≠ "" then { status with state := u.state } else status
  let s2 := if u.phase ≠ "" then { s1 with phase := u.phase } else s1
  let s3 := if u.message ≠ "" then { s2 with message := u.message } else s2
  let s4 := match u.result with
    | some r => { s3 with result := some r }
    | none => s3
  let s5 := if u.logLevel ≠ "" then
      s4.addLog u.logLevel u.phase u.message u.details now
    else s4
  { s5 with updatedAt := now }

/-! ## Agent connection (src/pkg/registry/agent_registry.go)

The outbound queue is a buffered Go channel `make(chan []byte, capacity)`.
Go channel semantics used by the code:
* a non-blocking send (`select` with `default`) on an OPEN channel enqueues
  when the buffer has room, otherwise takes the default branch;
* a send on a CLOSED channel panics — in a `select`, the send case on a
  closed channel is ready and proceeds by panicking;
* `close` of an already-closed channel panics.
A panic is modelled as the whole operation returning `none`. -/

/-- A buffered Go channel of message payloads. -/
structure GoChan where
  buf : List String
  capacity : Nat
  closed : Bool
  deriving DecidableEq, Repr

/-- Non-blocking send `select { case ch <- m: ...; default: ... }`:
`none` = panic (closed channel); `some (c, true)` = enqueued;
`some (c, false)` = default branch taken (buffer full). -/
def GoChan.trySend (c : GoChan) (m : String) : Option (GoChan × Bool) :=
  if c.closed then none
  else if c.buf.length < c.capacity then
    some ({ c with buf := c.buf ++ [m] }, true)
  else some (c, false)

/-- `close(ch)`: `none` = panic (already closed). -/
def GoChan.closeChan (c : GoChan) : Option GoChan :=
  if c.closed then none else some { c with closed := true }

/-- One receive from a non-empty buffer (the write loop draining one queued
message to the wire). -/
def GoChan.recvOne (c : GoChan) : Option (GoChan × String) :=
  match c.buf with
  | [] => none
  | m :: rest => some ({ c with buf := rest }, m)

/-- `registry.AgentConnection` (src/pkg/registry/agent_registry.go): the
agent record plus the outbound send channel. The raw websocket stream is
opaque to every claim and is not carried. -/
structure AgentConnection where
  agent : Agent
  sendChan : GoChan
  deriving DecidableEq, Repr

/-- Error returned by `AgentConnection.Send` when the select takes the
default branch. -/
inductive SendError where
  | channelFull
  deriving DecidableEq, Repr

/-- `AgentConnection.Send` (src/pkg/registry/agent_registry.go lines 21-31):
under the connection mutex, non-blocking send on `SendChan`. Outer `none` =
panic (the channel was closed); `some (ac, none)` = message enqueued;
`some (ac, some .channelFull)` = "send channel full" error. -/
def AgentConnection.send (ac : AgentConnection) (m : String) :
    Option (AgentConnection × Option SendError) :=
  match ac.sendChan.trySend m with
  | none => none
  | some (c, true) => some ({ ac with sendChan := c }, none)
  | some (_, false) => some (ac, some .channelFull)

/-- `AgentConnection.Close` (src/pkg/registry/agent_registry.go lines 34-40):
under the connection mutex, `close(ac.SendChan)` then close the stream.
`none` = panic (the channel was already closed). -/
def AgentConnection.close (ac : AgentConnection) : Option AgentConnection :=
  match ac.sendChan.closeChan with
  | none => none
  | some c => some { ac with sendChan := c }

/-! ## Agent registry (src/pkg/registry/agent_registry.go) -/

/-- Registry callbacks, in firing order. -/
inductive RegistryCallback where
  | connected (a : Agent)
  | disconnected (a : Agent)
  deriving DecidableEq, Repr

/-- Registry state: the `agents` map (id → connection). -/
structure Registry where
  agents : List (String × AgentConnection)
  deriving DecidableEq, Repr

/-- `AgentRegistry.Register` (src/pkg/registry/agent_registry.go lines
84-122). Under the registry write lock: validate; if the id is already
present, close the old connection, mark its record disconnected and fire the
disconnected callback; then build the fresh record (`ToAgent`), store it
under the id with a fresh 100-buffered send channel, and fire the connected
callback. Outer `none` = panic propagated from `existing.Close()`. -/
def Registry.register (st : Registry) (reg : AgentRegistration)
    (connectionID : String) (now : Int) :
    Option (Except AgentError (Registry × Agent × List RegistryCallback)) :=
  match reg.validate with
  | some err => some (.error err)
  | none =>
    let newAgent := reg.toAgent connectionID now
    let newConn : AgentConnection :=
      { agent := newAgent
        sendChan := { buf := [], capacity := 100, closed := false } }
    match mapFind st.agents reg.id with
    | some existing =>
      match existing.close with
      | none => none
      | some _ =>
        let oldAgent := existing.agent.markDisconnected now
        some (.ok
          ({ agents := mapSet st.agents reg.id newConn }, newAgent,
            [.disconnected oldAgent, .connected newAgent]))
    | none =>
      some (.ok
        ({ agents := mapSet st.agents reg.id newConn }, newAgent,
          [.connected newAgent]))

/-- `AgentRegistry.Unregister` (src/pkg/registry/agent_registry.go lines
125-149): mark disconnected, close, remove, fire disconnected callback.
Outer `none` = panic propagated from `Close()`. -/
def Registry.unregister (st : Registry) (agentID : String) (now : Int) :
    Option (Except AgentError (Registry × List RegistryCallback)) :=
  match mapFind st.agents agentID with
  | none => some (.error .agentNotFound)
  | some conn =>
    let oldAgent := conn.agent.markDisconnected now
    match ({ conn with agent := oldAgent } : AgentConnection).close with
    | none => none
    | some _ =>
      some (.ok ({ agents := mapDelete st.agents agentID },
        [.disconnected oldAgent]))

/-- `AgentRegistry.GetAgent` (src/pkg/registry/agent_registry.go lines
165-175): the bare agent record or not-found. -/
def Registry.getAgent (st : Registry) (agentID : String) : Option Agent :=
  match mapFind st.agents agentID with
  | some conn => some conn.agent
  | none => none

/-- `AgentRegistry.SendToAgent` (src/pkg/registry/agent_registry.go lines
258-265): look up the connection and call its `Send`. `.error .agentNotFound`
when absent; otherwise the `Send` outcome (inner `none` result = enqueued),
with the registry updated to the connection's new channel state. Outer
`none` = panic from a send on a closed channel. -/
def Registry.sendToAgent (st : Registry) (agentID : String) (m : String) :
    Option (Except AgentError (Registry × Option SendError)) :=
  match mapFind st.agents agentID with
  | none => some (.error .agentNotFound)
  | some conn =>
    match conn.send m with
    | none => none
    | some (conn2, res) =>
      some (.ok ({ agents := mapSet st.agents agentID conn2 }, res))

/-! ## Event router (src/unnamed/part_004, package router)

The router guards its pending map with a single non-reentrant `sync.RWMutex`
(`er.mu`). `RouteEvent` and `queueEvent` run with the mutex free and acquire
it inside `queueEvent`; `processPendingEvents` runs the whole tick holding
`er.mu.Lock()`. Go mutexes are not reentrant: acquiring a mutex already held
by the same goroutine blocks forever. Where the code would block forever
(or panic), the embedded operation returns `none`. -/

/-- `router.PendingEvent` (part_004 lines 20-26). -/
structure PendingEvent where
  event : Event
  queuedAt : Int
  retries : Nat
  expiresAt : Int
  deriving DecidableEq, Repr

/-- Router-internal state: the `pendingEvents` map (agent id → FIFO list). -/
structure RouterState where
  pending : List (String × List PendingEvent)
  deriving DecidableEq, Repr

/-- Router lifecycle callbacks, in firing order. -/
inductive RouterCallback where
  | routed (e : Event) (agentID : String)
  | queuedCb (e : Event) (agentID : String)
  | expiredCb (e : Event)
  | failedCb (e : Event) (reason : String)
  deriving DecidableEq, Repr

/-- Errors returned synchronously by `RouteEvent` (part_004): wrapped
validation errors, "event ... is expired" at route time, and "event ... is
expired, cannot queue" at enqueue time. -/
inductive RouteError where
  | validation (err : EventError)
  | expiredAtRoute
  | expiredAtQueue
  deriving DecidableEq, Repr

/-- The serialized framed message `json.Marshal(EventMessage{Type: "event",
Event: event})` (part_004 lines 119-131). `encoding/json` cannot fail on
this shape, and no claim inspects the wire text, so only a stand-in payload
is carried into the channel buffer. -/
def encodeEventMessage (e : Event) : String :=
  "event:" ++ e.id

/-- `EventRouter.queueEvent` (part_004 lines 149-180), run with `er.mu`
free: re-check expiry; if expired fire `expired` and fail, else append a
fresh `PendingEvent{Retries: 0, ExpiresAt: CreatedAt + TTL}` to the target
agent's bucket and fire `queued`. -/
def queueEvent (e : Event) (now : Int) (st : RouterState) :
    Except RouteError Unit × RouterState × List RouterCallback :=
  if e.isExpired now then
    (.error .expiredAtQueue, st, [.expiredCb e])
  else
    let p : PendingEvent :=
      { event := e, queuedAt := now, retries := 0,
        expiresAt := e.createdAt + e.ttl }
    (.ok (),
      { pending := mapSet st.pending e.targetAgent
          (mapGet st.pending e.targetAgent ++ [p]) },
      [.queuedCb e e.targetAgent])

/-- `EventRouter.sendEventToAgent` (part_004 lines 117-146) as reached from
`RouteEvent`, i.e. with `er.mu` free so its fallback `queueEvent` call can
take the lock: marshal (total here), `registry.SendToAgent`; on send failure
fall back to `queueEvent`; on success fire `routed`. Outer `none` = panic
from a send on a closed channel. -/
def sendEventToAgentFree (reg : Registry) (e : Event) (agentID : String)
    (nowQueue : Int) (st : RouterState) :
    Option (Except RouteError Unit × Registry × RouterState ×
      List RouterCallback) :=
  match reg.sendToAgent agentID (encodeEventMessage e) with
  | none => none
  | some (.error _) =>
    let (r, st2, cbs) := queueEvent e nowQueue st
    some (r, reg, st2, cbs)
  | some (.ok (reg2, some _)) =>
    let (r, st2, cbs) := queueEvent e nowQueue st
    some (r, reg2, st2, cbs)
  | some (.ok (reg2, none)) =>
    some (.ok (), reg2, st, [.routed e agentID])

/-- `EventRouter.RouteEvent` (part_004 lines 83-115): validate (failure fires
`failed` and returns the validation error); expiry check at route time
(failure fires `expired` and returns the expired error); then look up the
target agent and either queue (absent or not `connected`) or attempt
delivery. `nowRoute` is the instant of the route-time expiry check,
`nowQueue` the instant of `queueEvent`'s re-check. -/
def routeEvent (reg : Registry) (e : Event) (nowRoute nowQueue : Int)
    (st : RouterState) :
    Option (Except RouteError Unit × Registry × RouterState ×
      List RouterCallback) :=
  match e.validate with
  | some err =>
    some (.error (.validation err), reg, st,
      [.failedCb e "event validation failed"])
  | none =>
    if e.isExpired nowRoute then
      some (.error .expiredAtRoute, reg, st, [.expiredCb e])
    else
      match reg.getAgent e.targetAgent with
      | none =>
        let (r, st2, cbs) := queueEvent e nowQueue st
        some (r, reg, st2, cbs)
      | some a =>
        if a.status ≠ AgentStatus.connected then
          let (r, st2, cbs) := queueEvent e nowQueue st
          some (r, reg, st2, cbs)
        else
          sendEventToAgentFree reg e e.targetAgent nowQueue st

/-- One bucket of `EventRouter.processPendingEvents` (part_004 lines
199-236), holding `er.mu`: per entry, drop-and-fire-`expired` when past
`ExpiresAt`; drop-and-fire-`failed` ("max retries exceeded") when `Retries ≥
maxRetries`; keep unchanged when the agent is absent or not `connected`;
otherwise attempt delivery. On delivery success the entry is dropped and
`routed` fires. On delivery failure the code's `sendEventToAgent` calls
`queueEvent`, which tries to acquire `er.mu` — already held, non-reentrantly,
by `processPendingEvents` — so the retry worker blocks forever before the
`pending.Retries++` line: modelled as `none` for the whole tick. -/
def processBucket (maxRetries : Nat) (now : Int) (reg : Registry)
    (agentID : String) (events : List PendingEvent) :
    Option (Registry × List PendingEvent × List RouterCallback) :=
  match events with
  | [] => some (reg, [], [])
  | p :: rest =>
    if now > p.expiresAt then
      (processBucket maxRetries now reg agentID rest).map
        (fun (reg2, rem, cbs) => (reg2, rem, .expiredCb p.event :: cbs))
    else if p.retries ≥ maxRetries then
      (processBucket maxRetries now reg agentID rest).map
        (fun (reg2, rem, cbs) =>
          (reg2, rem, .failedCb p.event "max retries exceeded" :: cbs))
    else
      match reg.getAgent agentID with
      | none =>
        (processBucket maxRetries now reg agentID rest).map
          (fun (reg2, rem, cbs) => (reg2, p :: rem, cbs))
      | some a =>
        if a.status ≠ AgentStatus.connected then
          (processBucket maxRetries now reg agentID rest).map
            (fun (reg2, rem, cbs) => (reg2, p :: rem, cbs))
        else
          match reg.sendToAgent agentID (encodeEventMessage p.event) with
          | none => none
          | some (.error _) => none
          | some (.ok (_, some _)) => none
          | some (.ok (reg2, none)) =>
            (processBucket maxRetries now reg2 agentID rest).map
              (fun (reg3, rem, cbs) =>
                (reg3, rem, .routed p.event agentID :: cbs))

/-- The bucket loop of `processPendingEvents` (part_004 lines 199-244):
after a bucket is processed, a non-empty remainder is written back under the
agent id and an empty remainder deletes the key. -/
def processBuckets (maxRetries : Nat) (now : Int) (reg : Registry)
    (buckets : List (String × List PendingEvent)) :
    Option (Registry × List (String × List PendingEvent) ×
      List RouterCallback) :=
  match buckets with
  | [] => some (reg, [], [])
  | (aid, evs) :: rest =>
    match processBucket maxRetries now reg aid evs with
    | none => none
    | some (reg2, remaining, cbs) =>
      match processBuckets maxRetries now reg2 rest with
      | none => none
      | some (reg3, rest2, cbs2) =>
        if remaining.length > 0 then
          some (reg3, (aid, remaining) :: rest2, cbs ++ cbs2)
        else
          some (reg3, rest2, cbs ++ cbs2)

/-- `EventRouter.processPendingEvents` (part_004 lines 193-245): one retry
tick over the whole pending map, holding `er.mu`. `none` = the tick never
completes (deadlock on a failed delivery attempt). -/
def processPendingEvents (maxRetries : Nat) (now : Int) (reg : Registry)
    (st : RouterState) :
    Option (Registry × RouterState × List RouterCallback) :=
  (processBuckets maxRetries now reg st.pending).map
    (fun (reg2, buckets, cbs) => (reg2, { pending := buckets }, cbs))

/-- The quantified invariant of spec §8.2 over router state: every pending
entry has `retries ≤ maxRetries` and `expires_at = created_at + TTL`. -/
def pendingInv (maxRetries : Nat) (st : RouterState) : Prop :=
  ∀ b ∈ st.pending, ∀ p ∈ b.2,
    p.retries ≤ maxRetries ∧ p.expiresAt = p.event.createdAt + p.event.ttl

/-! ## Redis storage adapter (src/unnamed/part_005, package storage)

Only the pure read shapes the claims need are embedded. The counter
namespace of Redis is modelled as `String → Option Int` (`none` = key
absent, which `redis.Nil` maps to); the per-agent sorted set is modelled as
its member list already ordered by score descending, which is exactly the
view `ZRevRange` indexes into. -/

/-- The seven execution states enumerated by `GetEventStats` (part_005 lines
314-322), in source order. -/
def statStates : List String :=
  ["created", "queued", "assigned", "in_progress", "completed", "failed",
   "expired"]

/-- `RedisStorage.GetEventStats` (part_005 lines 303-334): read the total
counter and one counter per state; a missing key (`redis.Nil`) reads as 0
(`Int64()` on a nil reply returns 0 and the code treats `redis.Nil` as
non-fatal). The Go map is modelled as the association list in insertion
order. -/
def getEventStats (store : String → Option Int) : List (String × Int) :=
  ("total", (store "stats:events:total").getD 0) ::
    statStates.map (fun s => (s, (store ("stats:events:state:" ++ s)).getD 0))

/-- Redis `ZREVRANGE key start stop` over the member list `xs` already
sorted by score descending: negative indexes count from the end (−1 is the
last element), an index still negative after adding the length clamps to 0,
a stop past the end clamps to the end, and start > stop yields the empty
list. -/
def zrevrange (xs : List String) (start stop : Int) : List String :=
  let n : Int := xs.length
  let s0 : Int := if start < 0 then start + n else start
  let e0 : Int := if stop < 0 then stop + n else stop
  let s := max s0 0
  let e := min e0 (n - 1)
  if s > e then [] else (xs.drop s.toNat).take (e - s + 1).toNat

/-- `RedisStorage.ListEventsByAgent` (part_005 lines 108-118):
`ZRevRange(key, 0, limit-1)` over the agent's sorted set. -/
def listEventsByAgent (sortedDesc : List String) (limit : Int) :
    List String :=
  zrevrange sortedDesc 0 (limit - 1)

/-! ## Concrete sample values used by counterexample and failing-input
theorems. -/

/-- A terminal (completed) persisted status record. -/
def terminalStatusCex : EventStatus :=
  { eventID := "E1", agentID := "a1", state := "completed",
    phase := "completed", message := "done", updatedAt := 10,
    executionLog := [], result := none }

/-- A later status_update frame carrying the non-terminal state
`in_progress`. -/
def nonTerminalUpd : StatusUpdate :=
  { eventID := "E1", agentID := "a1", state := "in_progress",
    phase := "applying", message := "", logLevel := "", details := [],
    result := none, timestamp := 11 }

/-- An event whose kind tag is `k8s_resource` with a non-empty manifests
variant AND a non-empty script variant. -/
def mixedPayloadEvent : Event :=
  { id := "E1", eventType := "k8s_resource", targetAgent := "a1",
    payload := { manifests := ["apiVersion: v1"], script := "echo hi",
                 args := [], policyRules := [] },
    createdAt := 0, createdBy := "u", ttl := 100, priority := 0,
    labels := [] }

/-- A minimal valid event targeting agent a1, created at instant 0 with
TTL 100. -/
def sampleEvent : Event :=
  { id := "E1", eventType := "k8s_resource", targetAgent := "a1",
    payload := { manifests := ["apiVersion: v1"], script := "", args := [],
                 policyRules := [] },
    createdAt := 0, createdBy := "u", ttl := 100, priority := 0,
    labels := [] }

/-- A connected agent record named a1. -/
def sampleAgent : Agent :=
  { id := "a1", name := "agent-one", clusterName := "c1",
    clusterProvider := "eks", region := "r1", version := "0.1.0",
    labels := [], connectionID := "conn-1", status := .connected,
    lastHeartbeat := 0, connectedAt := 0, disconnectedAt := none,
    capabilities := ["k8s_crud"], hostname := "h1", namespaceName := "ns",
    metadata := [] }

/-- a1's connection with an open outbound channel saturated at its capacity
of 100, so every Send returns the full error. -/
def saturatedConn : AgentConnection :=
  { agent := sampleAgent,
    sendChan := { buf := List.replicate 100 "x", capacity := 100,
                  closed := false } }

/-- A registry holding only the saturated a1 connection. -/
def saturatedRegistry : Registry :=
  { agents := [("a1", saturatedConn)] }

/-- Router state holding one unexpired pending event for a1 with zero
retries. -/
def stuckPendingState : RouterState :=
  { pending := [("a1",
      [{ event := sampleEvent, queuedAt := 0, retries := 0,
         expiresAt := 100 }])] }

/-- a1's connection with an open, empty outbound channel of capacity 100. -/
def openConn : AgentConnection :=
  { agent := sampleAgent,
    sendChan := { buf := [], capacity := 100, closed := false } }

/-- `openConn` after `Close()`: the outbound channel is closed. -/
def closedConn : AgentConnection :=
  { agent := sampleAgent,
    sendChan := { buf := [], capacity := 100, closed := true } }

/-- A valid registration for agent id a1. -/
def sampleRegistration : AgentRegistration :=
  { id := "a1", name := "agent-one", clusterName := "c1",
    clusterProvider := "eks", region := "r1", version := "0.1.0",
    labels := [], capabilities := ["k8s_crud"], hostname := "h1",
    namespaceName := "ns", metadata := [] }

/-- A delivery attempt that fails (claim C4): `registry.SendToAgent`
returns an error — either the agent vanished between lookup and send, or the
connection's Send reported a full queue. The panic case (`none`) is a send
on a closed channel, which is not a returned error. -/
def deliveryFails (reg : Registry) (agentID m : String) : Prop :=
  (∃ err, reg.sendToAgent agentID m = some (.error err)) ∨
  (∃ reg2 se, reg.sendToAgent agentID m = some (.ok (reg2, some se)))

/-- An event failing validation (empty id). -/
def invalidEvent : Event :=
  { sampleEvent with id := "" }

/-! ## Helper lemmas about the association-list map operations. -/

theorem mem_mapSet {α : Type} {m : List (String × α)} {k : String} {v : α}
    {b : String × α} (hb : b ∈ mapSet m k v) : b = (k, v) ∨ b ∈ m := by
  induction m with
  | nil =>
    simp only [mapSet, List.mem_singleton] at hb
    exact Or.inl hb
  | cons p rest ih =>
    simp only [mapSet] at hb
    split at hb
    · rcases List.mem_cons.mp hb with h1 | h1
      · exact Or.inl h1
      · exact Or.inr (List.mem_cons_of_mem _ h1)
    · rcases List.mem_cons.mp hb with h1 | h1
      · exact Or.inr (h1 ▸ List.mem_cons_self _ _)
      · rcases ih h1 with h2 | h2
        · exact Or.inl h2
        · exact Or.inr (List.mem_cons_of_mem _ h2)

theorem mem_mapGet {α : Type} {m : List (String × List α)} {k : String}
    {x : α} (hx : x ∈ mapGet m k) : ∃ b ∈ m, x ∈ b.2 := by
  unfold mapGet at hx
  split at hx
  case h_1 p hp => exact ⟨p, List.mem_of_find?_eq_some hp, hx⟩
  case h_2 => cases hx

theorem mapFind_mapSet_self {α : Type} (m : List (String × α)) (k : String)
    (v : α) : mapFind (mapSet m k v) k = some v := by
  induction m with
  | nil => simp [mapSet, mapFind, List.find?]
  | cons p rest ih =>
    simp only [mapSet]
    split
    · simp [mapFind, List.find?]
    · simp only [mapFind, List.find?]
      rename_i hne
      rw [Bool.not_eq_true] at hne
      simp only [hne]
      exact ih

/-! ## Claim theorems -/

/-- C1: the claim says that once a persisted status is terminal, a later
status_update frame with a non-terminal state value is ignored by the status
reconciler. The reconciler (`handleAgentReads`, `status_update` arm) has no
terminal-state guard: applied to a status in the terminal state `completed`
and an update carrying the non-terminal state `in_progress`, it overwrites
the persisted state. -/
theorem terminal_state_overwritten :
    terminalStatusCex.isTerminal = true ∧
      (applyStatusUpdate terminalStatusCex nonTerminalUpd 12).state =
        "in_progress" ∧
      (applyStatusUpdate terminalStatusCex nonTerminalUpd 12).isTerminal =
        false := by
  refine ⟨rfl, rfl, rfl⟩

/-- C2 counterexample: an event whose kind tag is `k8s_resource` and whose
script variant is ALSO non-empty passes `Event.Validate`, although the claim
says such an event is rejected ("exactly one non-empty payload variant"). -/
theorem validate_accepts_mixed_payload :
    mixedPayloadEvent.validate = none ∧
      specExactlyOneVariant mixedPayloadEvent = false := by
  refine ⟨rfl, rfl⟩

/-- C2 (amended): `Event.Validate` returns no error exactly when the id and
target-agent are non-empty and the payload variant selected by the kind tag
is non-empty (the kind being one of the three known kinds); the non-matching
payload variants are not inspected. -/
theorem validate_ok_iff (e : Event) :
    e.validate = none ↔
      (e.id ≠ "" ∧ e.targetAgent ≠ "" ∧
        ((e.eventType = "k8s_resource" ∧ e.payload.manifests ≠ []) ∨
         (e.eventType = "script" ∧ e.payload.script ≠ "") ∨
         (e.eventType = "policy" ∧ e.payload.policyRules ≠ []))) := by
  unfold Event.validate
  split_ifs with h1 h2 h3 h4 h5 h6 h7 h8 h9 <;>
    simp_all [List.length_eq_zero]

/-- C3: per the claim (and spec §4.4/S4), a retry tick on a pending event
whose connected target agent rejects delivery (outbound queue full) should
increment the entry's retries and keep it; instead, the code's
`sendEventToAgent` falls back to `queueEvent`, which acquires the router
mutex `er.mu` that `processPendingEvents` already holds, so the retry worker
deadlocks (the tick never completes). The connection's Send really does
return the full error rather than panicking, so it is the deadlock — not the
channel — that kills the tick. -/
theorem retry_tick_deadlocks :
    saturatedConn.send (encodeEventMessage sampleEvent) =
      some (saturatedConn, some .channelFull) ∧
      processPendingEvents 3 10 saturatedRegistry stuckPendingState =
        none := by
  refine ⟨rfl, rfl⟩

/-- C5: the claim says that after `Close()` every `Send` fails with an error
and a second `Close()` is idempotent. The code closes the raw Go channel
with no closed-flag: a Send after Close panics (send on a closed channel)
instead of returning an error, and a second Close panics (close of a closed
channel) instead of being a no-op. -/
theorem send_and_close_after_close_panic :
    openConn.close = some closedConn ∧
      closedConn.send "m" = none ∧
      closedConn.close = none := by
  refine ⟨rfl, rfl, rfl⟩

/-- C9: for every state of the counters, `GetEventStats` returns a map whose
keys are exactly "total" followed by the seven execution states, each bound
to its counter's value with a missing (never-incremented) counter read as 0
rather than as an error or a missing key. -/
theorem getEventStats_spec (store : String → Option Int) :
    ((getEventStats store).map Prod.fst = "total" :: statStates) ∧
    ((getEventStats store).lookup "total" =
      some ((store "stats:events:total").getD 0)) ∧
    (∀ s ∈ statStates, (getEventStats store).lookup s =
      some ((store ("stats:events:state:" ++ s)).getD 0)) ∧
    (store "stats:events:total" = none →
      (getEventStats store).lookup "total" = some 0) ∧
    (∀ s ∈ statStates, store ("stats:events:state:" ++ s) = none →
      (getEventStats store).lookup s = some 0) := by
  refine ⟨by simp [getEventStats, statStates], ?_, ?_, ?_, ?_⟩
  · simp [getEventStats, statStates, List.lookup]
  · intro s hs
    fin_cases hs <;> simp [getEventStats, statStates, List.lookup]
  · intro h
    simp [getEventStats, statStates, List.lookup, h]
  · intro s hs h
    fin_cases hs <;> simp_all [getEventStats, statStates, List.lookup]

/-- C9 witness: the theorem applied to the empty counter store, with its two
bounded-quantifier hypotheses discharged at the state "created". -/
theorem getEventStats_spec_witness :
    ((getEventStats (fun _ => none)).lookup "created" = some 0) ∧
    ((getEventStats (fun _ => none)).lookup "total" = some 0) := by
  refine ⟨(getEventStats_spec (fun _ => none)).2.2.2.2 "created"
      (by decide) rfl,
    (getEventStats_spec (fun _ => none)).2.2.2.1 rfl⟩

/-- C10: `ListEventsByAgent(agentID, limit)` returns the agent's event ids
most-recent-first (the sorted set viewed by descending score) truncated to
`limit` entries for every `limit ≥ 1`, while `limit = 0` returns ALL of the
agent's event ids, because the range end index `limit - 1 = -1` denotes the
last element of the sorted set. -/
theorem listEventsByAgent_limit_spec (xs : List String) :
    (∀ limit : Int, 1 ≤ limit →
      listEventsByAgent xs limit = xs.take limit.toNat) ∧
    listEventsByAgent xs 0 = xs := by
  constructor
  · intro limit hl
    simp only [listEventsByAgent, zrevrange]
    rw [if_neg (show ¬ (0:Int) < 0 by omega),
      if_neg (show ¬ limit - 1 < 0 by omega), max_self]
    by_cases hxs : xs = []
    · subst hxs
      simp
    · have hn : 0 < xs.length := List.length_pos.mpr hxs
      rw [if_neg
        (show ¬ (0:Int) > (limit - 1) ⊓ ((xs.length : Int) - 1) by omega)]
      simp only [Int.toNat_zero, List.drop_zero]
      by_cases hle : limit ≤ (xs.length : Int)
      · rw [show ((limit - 1) ⊓ ((xs.length : Int) - 1) - 0 + 1).toNat =
          limit.toNat by omega]
      · rw [List.take_of_length_le (by omega),
          List.take_of_length_le (by omega)]
  · simp only [listEventsByAgent, zrevrange]
    rw [if_neg (show ¬ (0:Int) < 0 by omega),
      if_pos (show (0:Int) - 1 < 0 by omega), max_self]
    by_cases hxs : xs = []
    · subst hxs
      simp
    · have hn : 0 < xs.length := List.length_pos.mpr hxs
      rw [if_neg (show ¬ (0:Int) >
        ((0:Int) - 1 + (xs.length : Int)) ⊓ ((xs.length : Int) - 1)
        by omega)]
      simp only [Int.toNat_zero, List.drop_zero]
      exact List.take_of_length_le (by omega)

/-- C10 witness: the theorem applied to a concrete three-element sorted set,
with the `limit ≥ 1` hypothesis discharged at limit = 2, together with the
limit = 0 instance. -/
theorem listEventsByAgent_limit_spec_witness :
    listEventsByAgent ["e3", "e2", "e1"] 2 =
        (["e3", "e2", "e1"] : List String).take ((2 : Int)).toNat ∧
      listEventsByAgent ["e3", "e2", "e1"] 0 = ["e3", "e2", "e1"] := by
  exact ⟨(listEventsByAgent_limit_spec ["e3", "e2", "e1"]).1 2 (by decide),
    (listEventsByAgent_limit_spec ["e3", "e2", "e1"]).2⟩

/-- C6: on an open connection whose outbound queue has capacity 100, `Send`
is non-blocking: with free space it enqueues the message and returns
success; exactly at capacity it returns the full error with the queue
unchanged (the message is not silently dropped — the caller is told); and
draining exactly one message makes room for exactly one new successful Send
(the send after that one fails again). -/
theorem send_backpressure (ac : AgentConnection) (m m2 m3 : String)
    (hopen : ac.sendChan.closed = false)
    (hcap : ac.sendChan.capacity = 100) :
    (ac.sendChan.buf.length < 100 →
      ac.send m = some
        ({ ac with sendChan := { ac.sendChan with buf := ac.sendChan.buf ++ [m] } },
          none)) ∧
    (ac.sendChan.buf.length = 100 →
      ac.send m = some (ac, some .channelFull)) ∧
    (ac.sendChan.buf.length = 100 →
      ∀ c2 m0, ac.sendChan.recvOne = some (c2, m0) →
        ∃ ac3,
          (({ ac with sendChan := c2 } : AgentConnection).send m2 =
            some (ac3, none)) ∧
          ac3.send m3 = some (ac3, some .channelFull)) := by
  refine ⟨?_, ?_, ?_⟩
  · intro hlt
    simp [AgentConnection.send, GoChan.trySend, hopen, hcap, hlt]
  · intro hfull
    simp [AgentConnection.send, GoChan.trySend, hopen, hcap, hfull]
  · intro hfull c2 m0 hrecv
    rcases hbuf : ac.sendChan.buf with _ | ⟨hd, rest⟩
    · rw [GoChan.recvOne, hbuf] at hrecv
      cases hrecv
    · rw [GoChan.recvOne, hbuf] at hrecv
      simp only [Option.some.injEq, Prod.mk.injEq] at hrecv
      obtain ⟨h2, -⟩ := hrecv
      have hlen : rest.length = 99 := by
        have := hfull
        rw [hbuf] at this
        simpa using this
      refine ⟨{ ac with sendChan :=
        { ac.sendChan with buf := rest ++ [m2] } }, ?_, ?_⟩
      · rw [← h2]
        simp [AgentConnection.send, GoChan.trySend, hopen, hcap, hlen]
      · simp [AgentConnection.send, GoChan.trySend, hopen, hcap, hlen]

/-- C6 witness: the theorem applied to the saturated connection (open
channel, capacity 100, buffer length 100). -/
theorem send_backpressure_witness :
    saturatedConn.sendChan.closed = false ∧
    saturatedConn.sendChan.capacity = 100 ∧
    saturatedConn.send "a" = some (saturatedConn, some .channelFull) :=
  ⟨rfl, rfl, (send_backpressure saturatedConn "a" "b" "c" rfl rfl).2.1 rfl⟩

/-- C7: `Register` with an agent id already present in the registry fires
exactly one disconnected callback for the prior record (the record marked
disconnected, after its connection was successfully closed) and exactly one
connected callback for the new record, in that order, and the registry
afterwards maps the id to the new connection. -/
theorem register_supersedes (st : Registry) (reg : AgentRegistration)
    (cid : String) (now : Int) (ex : AgentConnection)
    (hval : reg.validate = none)
    (hex : mapFind st.agents reg.id = some ex)
    (hopen : ex.sendChan.closed = false) :
    st.register reg cid now =
      some (.ok
        ({ agents := mapSet st.agents reg.id
            { agent := reg.toAgent cid now,
              sendChan := { buf := [], capacity := 100, closed := false } } },
          reg.toAgent cid now,
          [.disconnected (ex.agent.markDisconnected now),
           .connected (reg.toAgent cid now)])) ∧
    mapFind (mapSet st.agents reg.id
        { agent := reg.toAgent cid now,
          sendChan := { buf := [], capacity := 100, closed := false } })
      reg.id =
      some { agent := reg.toAgent cid now,
             sendChan := { buf := [], capacity := 100, closed := false } } := by
  constructor
  · unfold Registry.register
    rw [hval, hex]
    simp [AgentConnection.close, GoChan.closeChan, hopen]
  · exact mapFind_mapSet_self _ _ _

/-- C7 witness: the theorem applied to a registry already holding an open
connection for a1 and a fresh valid registration for the same id. -/
theorem register_supersedes_witness :
    sampleRegistration.validate = none ∧
    mapFind [("a1", openConn)] "a1" = some openConn ∧
    openConn.sendChan.closed = false ∧
    mapFind (mapSet [("a1", openConn)] "a1"
        { agent := sampleRegistration.toAgent "c2" 5,
          sendChan := { buf := [], capacity := 100, closed := false } })
      "a1" =
      some { agent := sampleRegistration.toAgent "c2" 5,
             sendChan := { buf := [], capacity := 100, closed := false } } :=
  ⟨rfl, rfl, rfl,
    (register_supersedes { agents := [("a1", openConn)] } sampleRegistration
      "c2" 5 openConn rfl rfl rfl).2⟩

theorem queueEvent_cases (e : Event) (now : Int) (st : RouterState) :
    (e.isExpired now = true ∧
      queueEvent e now st = (.error .expiredAtQueue, st, [.expiredCb e])) ∨
    (e.isExpired now = false ∧
      queueEvent e now st = (.ok (),
        { pending := mapSet st.pending e.targetAgent
            (mapGet st.pending e.targetAgent ++
              [{ event := e, queuedAt := now, retries := 0,
                 expiresAt := e.createdAt + e.ttl }]) },
        [.queuedCb e e.targetAgent])) := by
  unfold queueEvent
  by_cases h : e.isExpired now <;> simp [h]

/-- C4: `RouteEvent` returns an error only when validation fails or the
event is expired (at route time or at the enqueue re-check); in every other
case — target agent absent, agent present but not connected, or the
delivery attempt failing — it appends the event to the target agent's
pending bucket and returns success to the caller (the registry component of
the outcome is discarded by the projection since queueing never touches
it). -/
theorem routeEvent_error_policy (reg : Registry) (e : Event)
    (nowRoute nowQueue : Int) (st : RouterState) :
    (∀ err reg2 st2 cbs,
      routeEvent reg e nowRoute nowQueue st =
          some (.error err, reg2, st2, cbs) →
        e.validate ≠ none ∨ e.isExpired nowRoute = true ∨
          e.isExpired nowQueue = true) ∧
    (e.validate = none → e.isExpired nowRoute = false →
      e.isExpired nowQueue = false →
      (reg.getAgent e.targetAgent = none ∨
        (∃ a, reg.getAgent e.targetAgent = some a ∧
          a.status ≠ AgentStatus.connected) ∨
        deliveryFails reg e.targetAgent (encodeEventMessage e)) →
      (routeEvent reg e nowRoute nowQueue st).map
          (fun out => (out.1, out.2.2.1, out.2.2.2)) =
        some (.ok (),
          { pending := mapSet st.pending e.targetAgent
              (mapGet st.pending e.targetAgent ++
                [{ event := e, queuedAt := nowQueue, retries := 0,
                   expiresAt := e.createdAt + e.ttl }]) },
          [.queuedCb e e.targetAgent])) := by
  constructor
  · intro err reg2 st2 cbs h
    unfold routeEvent at h
    split at h
    · exact Or.inl (by simp_all)
    · split at h
      · exact Or.inr (Or.inl (by assumption))
      · rcases queueEvent_cases e nowQueue st with ⟨hexp, hq⟩ | ⟨hexp, hq⟩
        · exact Or.inr (Or.inr hexp)
        · rw [hq] at h
          split at h
          · simp_all
          · split at h
            · simp_all
            · unfold sendEventToAgentFree at h
              rw [hq] at h
              split at h <;> simp_all
  · intro hv hr hq hfb
    rcases queueEvent_cases e nowQueue st with ⟨hexp, hqe⟩ | ⟨hexp, hqe⟩
    · rw [hexp] at hq
      cases hq
    · rcases hga : reg.getAgent e.targetAgent with _ | a
      · simp [routeEvent, hv, hr, hga, hqe]
      · rcases hfb with hfb | ⟨a2, ha2, hst⟩ | hfb
        · rw [hga] at hfb
          cases hfb
        · rw [hga] at ha2
          obtain rfl : a = a2 := by injection ha2
          simp [routeEvent, hv, hr, hga, hst, hqe]
        · by_cases hcs : a.status = AgentStatus.connected
          · rcases hfb with ⟨err0, hs⟩ | ⟨reg3, se, hs⟩ <;>
              simp [routeEvent, sendEventToAgentFree, hv, hr, hga, hcs, hs,
                hqe]
          · simp [routeEvent, hv, hr, hga, hcs, hqe]

/-- C4 witness: part one applied to an event with empty id (validation
error), part two applied to a valid unexpired event whose target agent is
absent from the registry. -/
theorem routeEvent_error_policy_witness :
    (invalidEvent.validate ≠ none ∨ invalidEvent.isExpired 1 = true ∨
      invalidEvent.isExpired 2 = true) ∧
    (routeEvent { agents := [] } sampleEvent 1 2 { pending := [] }).map
        (fun out => (out.1, out.2.2.1, out.2.2.2)) =
      some (.ok (),
        { pending := [("a1",
            [{ event := sampleEvent, queuedAt := 2, retries := 0,
               expiresAt := 100 }])] },
        [.queuedCb sampleEvent "a1"]) :=
  ⟨(routeEvent_error_policy { agents := [] } invalidEvent 1 2
      { pending := [] }).1 (.validation .missingEventID) { agents := [] }
      { pending := [] } [.failedCb invalidEvent "event validation failed"]
      rfl,
    (routeEvent_error_policy { agents := [] } sampleEvent 1 2
      { pending := [] }).2 rfl rfl rfl (Or.inl rfl)⟩

theorem pendingInv_queueEvent {maxRetries : Nat} {e : Event} {now : Int}
    {st : RouterState} (h : pendingInv maxRetries st) :
    pendingInv maxRetries (queueEvent e now st).2.1 := by
  rcases queueEvent_cases e now st with ⟨-, hq⟩ | ⟨-, hq⟩ <;> rw [hq]
  · exact h
  · intro b hb p hp
    rcases mem_mapSet hb with rfl | hbm
    · rcases List.mem_append.mp hp with hp1 | hp1
      · rcases mem_mapGet hp1 with ⟨b0, hb0, hpb0⟩
        exact h b0 hb0 p hpb0
      · rw [List.mem_singleton.mp hp1]
        exact ⟨Nat.zero_le _, rfl⟩
    · exact h b hbm p hp

theorem routeEvent_state {reg reg2 : Registry} {e : Event}
    {nowRoute nowQueue : Int} {st st2 : RouterState}
    {r : Except RouteError Unit} {cbs : List RouterCallback}
    (h : routeEvent reg e nowRoute nowQueue st = some (r, reg2, st2, cbs)) :
    st2 = st ∨ st2 = (queueEvent e nowQueue st).2.1 := by
  rcases hqe : queueEvent e nowQueue st with ⟨r0, st0, cbs0⟩
  unfold routeEvent at h
  split at h
  · simp only [Option.some.injEq, Prod.mk.injEq] at h
    exact Or.inl h.2.2.1.symm
  · split at h
    · simp only [Option.some.injEq, Prod.mk.injEq] at h
      exact Or.inl h.2.2.1.symm
    · split at h
      · rw [hqe] at h
        simp only [Option.some.injEq, Prod.mk.injEq] at h
        exact Or.inr h.2.2.1.symm
      · split at h
        · rw [hqe] at h
          simp only [Option.some.injEq, Prod.mk.injEq] at h
          exact Or.inr h.2.2.1.symm
        · unfold sendEventToAgentFree at h
          split at h
          · cases h
          · rw [hqe] at h
            simp only [Option.some.injEq, Prod.mk.injEq] at h
            exact Or.inr h.2.2.1.symm
          · rw [hqe] at h
            simp only [Option.some.injEq, Prod.mk.injEq] at h
            exact Or.inr h.2.2.1.symm
          · simp only [Option.some.injEq, Prod.mk.injEq] at h
            exact Or.inl h.2.2.1.symm

theorem processBucket_subset {maxRetries : Nat} {now : Int}
    {reg reg2 : Registry} {aid : String} {evs rem : List PendingEvent}
    {cbs : List RouterCallback}
    (h : processBucket maxRetries now reg aid evs = some (reg2, rem, cbs)) :
    ∀ p ∈ rem, p ∈ evs := by
  induction evs generalizing reg reg2 rem cbs with
  | nil =>
    simp only [processBucket, Option.some.injEq, Prod.mk.injEq] at h
    intro p hp
    rw [← h.2.1] at hp
    cases hp
  | cons p0 rest ih =>
    simp only [processBucket] at h
    split at h
    · rcases hrec : processBucket maxRetries now reg aid rest with _ | out
      · rw [hrec] at h
        cases h
      · obtain ⟨r2, rem0, cbs0⟩ := out
        rw [hrec] at h
        simp only [Option.map_some', Option.some.injEq, Prod.mk.injEq] at h
        intro p hp
        rw [← h.2.1] at hp
        exact List.mem_cons_of_mem _ (ih hrec p hp)
    · split at h
      · rcases hrec : processBucket maxRetries now reg aid rest with _ | out
        · rw [hrec] at h
          cases h
        · obtain ⟨r2, rem0, cbs0⟩ := out
          rw [hrec] at h
          simp only [Option.map_some', Option.some.injEq, Prod.mk.injEq] at h
          intro p hp
          rw [← h.2.1] at hp
          exact List.mem_cons_of_mem _ (ih hrec p hp)
      · split at h
        · rcases hrec : processBucket maxRetries now reg aid rest with _ | out
          · rw [hrec] at h
            cases h
          · obtain ⟨r2, rem0, cbs0⟩ := out
            rw [hrec] at h
            simp only [Option.map_some', Option.some.injEq,
              Prod.mk.injEq] at h
            intro p hp
            rw [← h.2.1] at hp
            rcases List.mem_cons.mp hp with rfl | hp2
            · exact List.mem_cons_self _ _
            · exact List.mem_cons_of_mem _ (ih hrec p hp2)
        · split at h
          · rcases hrec : processBucket maxRetries now reg aid rest
              with _ | out
            · rw [hrec] at h
              cases h
            · obtain ⟨r2, rem0, cbs0⟩ := out
              rw [hrec] at h
              simp only [Option.map_some', Option.some.injEq,
                Prod.mk.injEq] at h
              intro p hp
              rw [← h.2.1] at hp
              rcases List.mem_cons.mp hp with rfl | hp2
              · exact List.mem_cons_self _ _
              · exact List.mem_cons_of_mem _ (ih hrec p hp2)
          · split at h
            · cases h
            · cases h
            · cases h
            · rename_i reg3 hsend
              rcases hrec : processBucket maxRetries now reg3 aid rest
                with _ | out
              · rw [hrec] at h
                cases h
              · obtain ⟨r2, rem0, cbs0⟩ := out
                rw [hrec] at h
                simp only [Option.map_some', Option.some.injEq,
                  Prod.mk.injEq] at h
                intro p hp
                rw [← h.2.1] at hp
                exact List.mem_cons_of_mem _ (ih hrec p hp)

theorem processBuckets_subset {maxRetries : Nat} {now : Int}
    {reg reg2 : Registry}
    {buckets out : List (String × List PendingEvent)}
    {cbs : List RouterCallback}
    (h : processBuckets maxRetries now reg buckets =
      some (reg2, out, cbs)) :
    ∀ b ∈ out, ∃ evs, (b.1, evs) ∈ buckets ∧ ∀ p ∈ b.2, p ∈ evs := by
  induction buckets generalizing reg reg2 out cbs with
  | nil =>
    simp only [processBuckets, Option.some.injEq, Prod.mk.injEq] at h
    intro b hb
    rw [← h.2.1] at hb
    cases hb
  | cons b0 rest ih =>
    obtain ⟨aid, evs⟩ := b0
    simp only [processBuckets] at h
    rcases hb0 : processBucket maxRetries now reg aid evs with _ | out0
    · rw [hb0] at h
      cases h
    · obtain ⟨r2, remaining, cbs1⟩ := out0
      simp only [hb0] at h
      rcases hrest : processBuckets maxRetries now r2 rest with _ | outR
      · simp [hrest] at h
      · obtain ⟨r3, rest2, cbs2⟩ := outR
        simp only [hrest] at h
        split at h
        · simp only [Option.some.injEq, Prod.mk.injEq] at h
          intro b hb
          rw [← h.2.1] at hb
          rcases List.mem_cons.mp hb with rfl | hb2
          · exact ⟨evs, List.mem_cons_self _ _, processBucket_subset hb0⟩
          · obtain ⟨evs2, hm, hsub⟩ := ih hrest b hb2
            exact ⟨evs2, List.mem_cons_of_mem _ hm, hsub⟩
        · simp only [Option.some.injEq, Prod.mk.injEq] at h
          intro b hb
          rw [← h.2.1] at hb
          obtain ⟨evs2, hm, hsub⟩ := ih hrest b hb
          exact ⟨evs2, List.mem_cons_of_mem _ hm, hsub⟩

/-- C8: for every pending event held by the router, `retries ≤ maxRetries`
and `expires_at = event.created_at + event.TTL`; the invariant is preserved
both by `RouteEvent` (which can only enqueue fresh entries with retries = 0
and the derived expiry) and by every completed retry tick (which only keeps
entries unchanged or drops them). -/
theorem pending_invariant_preserved (maxRetries : Nat) (reg : Registry)
    (e : Event) (nowRoute nowQueue now : Int) (st : RouterState)
    (h : pendingInv maxRetries st) :
    (∀ r reg2 st2 cbs,
      routeEvent reg e nowRoute nowQueue st = some (r, reg2, st2, cbs) →
        pendingInv maxRetries st2) ∧
    (∀ reg2 st2 cbs,
      processPendingEvents maxRetries now reg st = some (reg2, st2, cbs) →
        pendingInv maxRetries st2) := by
  constructor
  · intro r reg2 st2 cbs hroute
    rcases routeEvent_state hroute with rfl | rfl
    · exact h
    · exact pendingInv_queueEvent h
  · intro reg2 st2 cbs htick
    unfold processPendingEvents at htick
    rcases hb : processBuckets maxRetries now reg st.pending with _ | out
    · rw [hb] at htick
      cases htick
    · obtain ⟨r2, buckets2, cbs2⟩ := out
      rw [hb] at htick
      simp only [Option.map_some', Option.some.injEq, Prod.mk.injEq]
        at htick
      intro b hbm p hp
      rw [← htick.2.1] at hbm
      obtain ⟨evs, hm, hsub⟩ := processBuckets_subset hb b hbm
      exact h (b.1, evs) hm p (hsub p hp)

/-- C8 witness: the invariant on the singleton queued state produced by
routing a valid event to an empty registry from an empty pending map, with
the invariant hypothesis discharged on the empty state. -/
theorem pending_invariant_preserved_witness :
    pendingInv 3
      { pending := [("a1",
          [{ event := sampleEvent, queuedAt := 2, retries := 0,
             expiresAt := 100 }])] } :=
  (pending_invariant_preserved 3 { agents := [] } sampleEvent 1 2 10
      { pending := [] } (by simp [pendingInv])).1 (.ok ()) { agents := [] }
    { pending := [("a1",
        [{ event := sampleEvent, queuedAt := 2, retries := 0,
           expiresAt := 100 }])] }
    [.queuedCb sampleEvent "a1"] rfl

end Transporter
